import Mathlib

/-!
# Verification of the uv trampoline launcher (`crates/uv-trampoline/src/bounce.rs`)

Shallow embedding of the runtime mechanism of the trampoline launcher:
trailer decoding, command-line reconstruction with Windows quoting/escaping,
and the exit-code propagation control flow.  Byte strings are modelled as
`List Nat` (each element a byte value), paths at the OS level as an
absolute-flag plus a list of components, and OS calls as boolean oracles.
-/

set_option maxRecDepth 10000

/-- Bytes of an ASCII string literal (used only to write concrete test inputs). -/
def strBytes (s : String) : List Nat := s.data.map Char.toNat

/-- `u8::is_ascii_whitespace` of the Rust standard library:
space, horizontal tab, newline, form feed, carriage return. -/
def isAsciiWhitespace (b : Nat) : Bool :=
  b == 32 || b == 9 || b == 10 || b == 12 || b == 13

/-- The last `n` elements of a list (the suffix read from the back of the file). -/
def listLastN (n : Nat) (l : List Nat) : List Nat := l.drop (l.length - n)

/-- Remove the last `n` elements of a list (Rust `Vec::truncate(len - n)`). -/
def dropLastN (n : Nat) (l : List Nat) : List Nat := l.take (l.length - n)

/-- The kind of trampoline (`TrampolineKind` in `bounce.rs`). -/
inductive TrampolineKind
  /-- The trampoline should execute itself, it is a zipped Python script. -/
  | Script
  /-- The trampoline should just execute Python, it is a proxy Python executable. -/
  | Python
deriving DecidableEq

/-- `TrampolineKind::magic_number`: `b"UVSC"` for scripts, `b"UVPY"` for Python proxies. -/
def TrampolineKind.magic_number : TrampolineKind → List Nat
  | .Script => [85, 86, 83, 67]
  | .Python => [85, 86, 80, 89]

/-- `TrampolineKind::from_buffer`: test whether the buffer ends with the
`Script` magic number, then with the `Python` magic number. -/
def TrampolineKind.from_buffer (buffer : List Nat) : Option TrampolineKind :=
  if TrampolineKind.Script.magic_number.isSuffixOf buffer then some .Script
  else if TrampolineKind.Python.magic_number.isSuffixOf buffer then some .Python
  else none

/-- `push_quoted_path`: append the path to `command` wrapped in double quotes,
replacing every literal double-quote byte (34) by three double-quote bytes. -/
def push_quoted_path (path : List Nat) (command : List Nat) : List Nat :=
  (command ++ [34]) ++
    (path.flatMap fun byte => if byte = 34 then [34, 34, 34] else [byte]) ++ [34]

/-- The `offset` computed by the scan loop of `skip_one_argument`: quote bytes
(34) toggle the `quoted` flag; a backslash (92) followed by a quote or a
backslash is consumed as a pair; an unquoted whitespace byte ends the scan
before `offset` is incremented past it. -/
def skipOffsetAux : Bool → List Nat → Nat
  | _, [] => 0
  | quoted, 34 :: rest => skipOffsetAux (!quoted) rest + 1
  | quoted, 92 :: r :: rest2 =>
    if r = 34 || r = 92 then skipOffsetAux quoted rest2 + 2
    else skipOffsetAux quoted (r :: rest2) + 1
  | _, [92] => 1
  | quoted, b :: rest =>
    if isAsciiWhitespace b && !quoted then 0 else skipOffsetAux quoted rest + 1

/-- `skip_one_argument`: return `&arguments[offset..]` for the scanned offset. -/
def skip_one_argument (arguments : List Nat) : List Nat :=
  arguments.drop (skipOffsetAux false arguments)

/-- The command-line construction of `make_child_cmdline`, as a pure function of
the decoded trampoline kind, the resolved interpreter path bytes, the launcher's
own executable path bytes, and the process's raw invocation command line. -/
def make_child_cmdline (kind : TrampolineKind)
    (python_exe executable_name arguments : List Nat) : List Nat :=
  let child_cmdline := push_quoted_path python_exe []
  let child_cmdline := child_cmdline ++ [32]
  let child_cmdline :=
    match kind with
    | .Python => child_cmdline
    | .Script => push_quoted_path executable_name child_cmdline
  let child_cmdline := child_cmdline ++ skip_one_argument arguments
  child_cmdline ++ [0]

/-- The four trailing bytes holding the path length, little endian
(the encoding side of `u32::from_le_bytes`). -/
def leBytes32 (n : Nat) : List Nat :=
  [n % 256, n / 256 % 256, n / 65536 % 256, n / 16777216 % 256]

/-- `u32::from_le_bytes` on a four-byte slice. -/
def leU32 (bytes : List Nat) : Nat :=
  match bytes with
  | [a, b, c, d] => a + 256 * b + 65536 * c + 16777216 * d
  | _ => 0

/-- The fatal decode errors of `read_trampoline_metadata` and of the path
resolution that follows it; each corresponds to one `error_and_exit` call. -/
inductive DecodeError
  | magicNotFound
  | pathLenMissing
  | pathTooLong (pathLen : Nat)
  | pathLenExceedsFileSize
  | invalidUtf8
  | noParentDirectory
  | canonicalizeFailed
deriving DecidableEq

/-- Result of decoding one read window in `read_trampoline_metadata`:
success, a request to re-read a larger window, or a fatal decode error. -/
inductive WindowResult
  | ok (kind : TrampolineKind) (path : List Nat)
  | needMore (pathLen : Nat)
  | fail (e : DecodeError)
deriving DecidableEq

/-- Overall result of trailer decoding: the `(kind, path)` pair, or a fatal
error (`error_and_exit`, which terminates the process with status 1). -/
inductive MetadataResult
  | ok (kind : TrampolineKind) (path : List Nat)
  | fatal (e : DecodeError)
deriving DecidableEq

/-- A UTF-8 continuation byte (`10xxxxxx`). -/
def isUtf8Cont (b : Nat) : Bool := 128 ≤ b && b ≤ 191

/-- Validity of a byte sequence as UTF-8, exactly as `String::from_utf8`
decides it (continuation counts, overlong forms, surrogates, and the
`U+10FFFF` bound all checked). -/
def validUtf8 : List Nat → Bool
  | [] => true
  | b :: rest =>
    if b ≤ 127 then validUtf8 rest
    else if 194 ≤ b && b ≤ 223 then
      match rest with
      | c :: r => isUtf8Cont c && validUtf8 r
      | [] => false
    else if b = 224 then
      match rest with
      | c :: d :: r => (160 ≤ c && c ≤ 191) && isUtf8Cont d && validUtf8 r
      | _ => false
    else if (225 ≤ b && b ≤ 236) || b = 238 || b = 239 then
      match rest with
      | c :: d :: r => isUtf8Cont c && isUtf8Cont d && validUtf8 r
      | _ => false
    else if b = 237 then
      match rest with
      | c :: d :: r => (128 ≤ c && c ≤ 159) && isUtf8Cont d && validUtf8 r
      | _ => false
    else if b = 240 then
      match rest with
      | c :: d :: e :: r => (144 ≤ c && c ≤ 191) && isUtf8Cont d && isUtf8Cont e && validUtf8 r
      | _ => false
    else if 241 ≤ b && b ≤ 243 then
      match rest with
      | c :: d :: e :: r => isUtf8Cont c && isUtf8Cont d && isUtf8Cont e && validUtf8 r
      | _ => false
    else if b = 244 then
      match rest with
      | c :: d :: e :: r => (128 ≤ c && c ≤ 143) && isUtf8Cont d && isUtf8Cont e && validUtf8 r
      | _ => false
    else false

/-- One iteration of the decode loop of `read_trampoline_metadata`, acting on
the freshly read window `buffer`: find the magic number, strip it, read the
little-endian path length, enforce `MAX_PATH_LEN` (32 * 1024), strip the
length field, and either slice out the path (checking UTF-8 validity) or
report that `path_len` more bytes are needed. -/
def decodeWindow (buffer : List Nat) : WindowResult :=
  match TrampolineKind.from_buffer buffer with
  | none => .fail .magicNotFound
  | some kind =>
    let buffer1 := dropLastN 4 buffer
    -- `buffer.get(buffer.len() - PATH_LEN_SIZE..)` yields `None` when fewer
    -- than four bytes remain (release-mode wrapping subtraction)
    if buffer1.length < 4 then .fail .pathLenMissing
    else
      let path_len := leU32 (listLastN 4 buffer1)
      if 32768 < path_len then .fail (.pathTooLong path_len)
      else
        let buffer2 := dropLastN 4 buffer1
        if path_len ≤ buffer2.length then
          let pathBytes := listLastN path_len buffer2
          if validUtf8 pathBytes then .ok kind pathBytes else .fail .invalidUtf8
        else .needMore path_len

/-- The trailer-decoding portion of `read_trampoline_metadata` (everything
before path resolution): decode the window of the last `min 1024 file_size`
bytes of the file; on `needMore`, grow the window to
`path_len + magic_number.len() + PATH_LEN_SIZE` bytes, failing if that exceeds
the file size, and decode again.  A re-read window of exactly `path_len + 8`
bytes always has exactly `path_len` bytes left after stripping the tag and the
length field (which are the same trailing file bytes the first window saw), so
its extraction branch is taken and `needMore` cannot repeat: the Rust loop
runs at most twice, and the final arm below is unreachable. -/
def read_trampoline_metadata (file : List Nat) : MetadataResult :=
  match decodeWindow (listLastN (min 1024 file.length) file) with
  | .ok kind path => .ok kind path
  | .fail e => .fatal e
  | .needMore path_len =>
    if file.length < path_len + 4 + 4 then .fatal .pathLenExceedsFileSize
    else
      match decodeWindow (listLastN (path_len + 4 + 4) file) with
      | .ok kind path => .ok kind path
      | .fail e => .fatal e
      | .needMore _ => .fatal .pathLenExceedsFileSize

/-- Number of leading backslash bytes (92) of a byte string. -/
def leadingBackslashes : List Nat → Nat
  | [] => 0
  | b :: rest => if b = 92 then leadingBackslashes rest + 1 else 0

/-- The byte string after its leading backslash bytes. -/
def afterBackslashes : List Nat → List Nat
  | [] => []
  | b :: rest => if b = 92 then afterBackslashes rest else b :: rest

/-- Modelled from the spec: the platform's documented command-line tokenizer for
the first token, the grammar that `skip_one_argument` replicates the boundary
behaviour of (the tokenizer itself lives in the platform's C runtime, outside
this repository).  A quoted/unquoted state is toggled by unescaped double
quotes; inside a quoted span a pair of double quotes yields one literal double
quote (ending the current quoted span, emitting one literal quote, and letting
the following quote reopen a quoted span, as the spec describes the escaping);
a run of `n` backslashes immediately followed by a double quote yields `n / 2`
literal backslashes, plus a literal quote if `n` is odd, the quote otherwise
acting as a delimiter; backslashes not followed by a quote are literal; an
unquoted whitespace byte ends the token. -/
def parseFirstToken (quoted : Bool) : List Nat → List Nat
  | [] => []
  | 34 :: rest =>
    if quoted then
      match rest with
      | 34 :: rest2 => 34 :: parseFirstToken false rest2
      | other => parseFirstToken false other
    else parseFirstToken true rest
  | 92 :: rest =>
    match h2 : afterBackslashes rest with
    | 34 :: rest2 =>
      if (leadingBackslashes rest + 1) % 2 = 1 then
        List.replicate ((leadingBackslashes rest + 1) / 2) 92 ++ 34 :: parseFirstToken quoted rest2
      else
        List.replicate ((leadingBackslashes rest + 1) / 2) 92 ++ parseFirstToken quoted (34 :: rest2)
    | tail => List.replicate (leadingBackslashes rest + 1) 92 ++ parseFirstToken quoted tail
  | b :: rest =>
    if isAsciiWhitespace b && !quoted then [] else b :: parseFirstToken quoted rest
termination_by l => l.length
decreasing_by
  all_goals
    have haux : ∀ l : List Nat, (afterBackslashes l).length ≤ l.length := by
      intro l
      induction l with
      | nil => simp [afterBackslashes]
      | cons x xs ih =>
        by_cases hx : x = 92
        · simp only [afterBackslashes, if_pos hx, List.length_cons]
          omega
        · simp [afterBackslashes, hx]
    first
      | (simp only [List.length_cons]; omega)
      | (have hlen := haux rest; rw [h2] at hlen; simp only [List.length_cons] at hlen ⊢; omega)

/-- Paths in which no backslash byte immediately precedes a double-quote byte
and whose last byte is not a backslash.  Outside this set the platform
tokenizer treats a backslash of the quoted path as the start of an escape
sequence, so quoting cannot round-trip (see the counterexample below). -/
def noBackslashIssue : List Nat → Bool
  | [] => true
  | [b] => !(b == 92)
  | 92 :: 34 :: _ => false
  | _ :: rest => noBackslashIssue rest

/-- Modelled from the spec: the documented trailer layout produced by the
build/packaging step (outside this repository): launcher code, then the UTF-8
path bytes, then the path length as `u32` little endian, then the 4-byte kind
tag. -/
def encodeTrailer (code : List Nat) (kind : TrampolineKind) (path : List Nat) : List Nat :=
  code ++ path ++ leBytes32 path.length ++ kind.magic_number

/-- A Windows path, abstracted as an absolute flag (drive-rooted or not)
together with its list of components. -/
structure WinPath where
  absolute : Bool
  components : List String
deriving DecidableEq

/-- `Path::parent`: strip the last component; `none` when there is no
component to strip. -/
def WinPath.parent (p : WinPath) : Option WinPath :=
  match p.components with
  | [] => none
  | _ => some ⟨p.absolute, p.components.dropLast⟩

/-- `Path::join` with a single relative file name. -/
def WinPath.join (p : WinPath) (name : String) : WinPath :=
  ⟨p.absolute, p.components ++ [name]⟩

/-- `Path::join` with a relative path. -/
def WinPath.joinPath (p q : WinPath) : WinPath :=
  ⟨p.absolute, p.components ++ q.components⟩

/-- `is_virtualenv`: whether a `pyvenv.cfg` file exists in the grandparent
directory of the given executable
(`executable.parent().and_then(Path::parent).map(|path| path.join("pyvenv.cfg").is_file()).unwrap_or(false)`).
The filesystem is abstracted as the predicate `is_file`. -/
def is_virtualenv (is_file : WinPath → Bool) (executable : WinPath) : Bool :=
  match executable.parent with
  | none => false
  | some parent =>
    match parent.parent with
    | none => false
    | some grandparent => is_file (grandparent.join "pyvenv.cfg")

/-- `std::env::var("PYTHONHOME").is_ok_and(|home| !home.is_empty())`. -/
def pythonHomeSet (home : Option String) : Bool :=
  match home with
  | some h => !(h == "")
  | none => false

/-- The effect of the `TrampolineKind::Python` arm of `make_child_cmdline` on
the `PYTHONHOME` environment variable. -/
inductive PythonHomeAction
  /-- `PYTHONHOME` is set to this directory. -/
  | setTo (dir : WinPath)
  /-- `PYTHONHOME` is left untouched. -/
  | leaveUnchanged
deriving DecidableEq

/-- The `PYTHONHOME` update performed by the `Python` arm of
`make_child_cmdline`: if the interpreter is not in a virtual environment and
`PYTHONHOME` is not already set non-empty, set it to the interpreter's parent
directory.  The outer `Option` models the `expect` panic when the interpreter
path has no parent directory. -/
def pythonHomeAction (is_file : WinPath → Bool) (python_exe : WinPath)
    (python_home : Option String) : Option PythonHomeAction :=
  if !is_virtualenv is_file python_exe && !pythonHomeSet python_home then
    match python_exe.parent with
    | some parent => some (.setTo parent)
    | none => none
  else some .leaveUnchanged

/-- Result of the path-resolution tail of `read_trampoline_metadata`. -/
inductive ResolveResult
  | ok (path : WinPath)
  | fatal (e : DecodeError)
deriving DecidableEq

/-- The path-resolution tail of `read_trampoline_metadata` (lines following the
decode loop): a relative decoded path is joined onto the launcher's parent
directory; then, if the resulting path is still not absolute or the kind is
`Script`, it is canonicalized (`dunce::canonicalize`, abstracted as the
function `canonicalize`, `none` modelling its failure); otherwise the path is
returned untouched. -/
def resolveInterpreterPath (canonicalize : WinPath → Option WinPath)
    (executable_name : WinPath) (kind : TrampolineKind) (path : WinPath) :
    ResolveResult :=
  let step1 : ResolveResult :=
    if path.absolute then .ok path
    else
      match executable_name.parent with
      | some parent_dir => .ok (parent_dir.joinPath path)
      | none => .fatal .noParentDirectory
  match step1 with
  | .fatal e => .fatal e
  | .ok path1 =>
    if path1.absolute = false ∨ kind = .Script then
      match canonicalize path1 with
      | some canonical => .ok canonical
      | none => .fatal .canonicalizeFailed
    else .ok path1

/-- Oracles for the outcome of each OS call made on the `bounce` path, plus
the exit code the child reports.  Fields appear in the order the corresponding
calls are made in `bounce`. -/
structure OsWorld where
  /-- `CreateProcessA` succeeds. -/
  createProcessOk : Bool
  /-- `CloseHandle` on the child's initial thread handle succeeds. -/
  closeThreadHandleOk : Bool
  /-- `CreateJobObjectA` succeeds. -/
  jobCreateOk : Bool
  /-- `QueryInformationJobObject` succeeds. -/
  jobQueryOk : Bool
  /-- `SetInformationJobObject` succeeds. -/
  jobSetOk : Bool
  /-- `AssignProcessToJobObject` succeeds. -/
  assignToJobOk : Bool
  /-- `SetConsoleCtrlHandler` succeeds. -/
  setCtrlHandlerOk : Bool
  /-- `CreateWindowExA` succeeds (GUI handshake only). -/
  createWindowOk : Bool
  /-- `DestroyWindow` succeeds (GUI handshake only). -/
  destroyWindowOk : Bool
  /-- `GetExitCodeProcess` succeeds. -/
  getExitCodeOk : Bool
  /-- The exit code of the child process, as a `u32`. -/
  childExitCode : Nat
deriving DecidableEq

/-- What the launcher process does in the end: the status it exits with, and
whether process creation (`CreateProcessA`) was ever attempted. -/
structure BounceResult where
  exitCode : Nat
  spawnAttempted : Bool
deriving DecidableEq

/-- The control flow of `bounce`: build the child command line (a fatal decode
error exits with status 1 before any process is created), then spawn the
child, create and configure the job object, assign the child to it, install
the console control handler, optionally run the GUI idle handshake (whose only
fatal step is `DestroyWindow`, reached just when the window was created), wait
for the child and exit with its exit code.  Every fatal OS failure exits with
status 1; best-effort steps (`close_handles`, the working-directory switch,
the other GUI handshake steps) only warn and are not modelled. -/
def bounceModel (w : OsWorld) (is_gui : Bool)
    (child_cmdline : Except DecodeError (List Nat)) : BounceResult :=
  match child_cmdline with
  | .error _ => ⟨1, false⟩
  | .ok _ =>
    if w.createProcessOk = false then ⟨1, true⟩
    else if w.closeThreadHandleOk = false then ⟨1, true⟩
    else if w.jobCreateOk = false then ⟨1, true⟩
    else if w.jobQueryOk = false then ⟨1, true⟩
    else if w.jobSetOk = false then ⟨1, true⟩
    else if w.assignToJobOk = false then ⟨1, true⟩
    else if w.setCtrlHandlerOk = false then ⟨1, true⟩
    else if is_gui && w.createWindowOk && !w.destroyWindowOk then ⟨1, true⟩
    else if w.getExitCodeOk = false then ⟨1, true⟩
    else ⟨w.childExitCode, true⟩

/-- The pipeline from the launcher's own file contents to the `bounce`
outcome: decode the trailer from the file, build the child command line from
the decoded metadata, and run the `bounce` control flow. -/
def launchPipeline (w : OsWorld) (is_gui : Bool) (file : List Nat)
    (executable_name arguments : List Nat) : BounceResult :=
  bounceModel w is_gui
    (match read_trampoline_metadata file with
     | .fatal e => .error e
     | .ok kind path => .ok (make_child_cmdline kind path executable_name arguments))

/-- The scanned offset never exceeds the input length (so the Rust slice
`&arguments[offset..]` is in bounds). -/
theorem skipOffsetAux_le (quoted : Bool) (args : List Nat) :
    skipOffsetAux quoted args ≤ args.length := by
  induction quoted, args using skipOffsetAux.induct
  all_goals simp_all [skipOffsetAux]
  all_goals split
  all_goals simp_all

/-- Whenever the scan stops strictly inside the input, it stops on an
unquoted whitespace byte: any nonempty remainder starts with whitespace. -/
theorem skipOffsetAux_drop_head_ws (quoted : Bool) (args : List Nat) :
    ∀ b rest, args.drop (skipOffsetAux quoted args) = b :: rest →
      isAsciiWhitespace b = true := by
  induction quoted, args using skipOffsetAux.induct
  all_goals intro b rest hdrop
  all_goals simp_all [skipOffsetAux]
  all_goals split at hdrop
  all_goals simp_all

/-- Claim C1: for a `Script` trailer with interpreter `C:\env\python.exe`,
launcher `C:\env\Scripts\tool.exe` and invocation `tool --version`, the
constructed child command line is exactly
`"C:\env\python.exe" "C:\env\Scripts\tool.exe" --version` followed by the
terminating null byte. -/
theorem claim_C1_script_end_to_end_cmdline :
    make_child_cmdline .Script (strBytes "C:\\env\\python.exe")
      (strBytes "C:\\env\\Scripts\\tool.exe") (strBytes "tool --version") =
    strBytes "\"C:\\env\\python.exe\" \"C:\\env\\Scripts\\tool.exe\" --version" ++ [0] := by
  decide

/-- Claim C5: on the invocation byte string `"prog.exe" --flag "a b" c`,
`skip_one_argument` returns exactly ` --flag "a b" c` (beginning with the
separating space, everything after it verbatim). -/
theorem claim_C5_skip_concrete :
    skip_one_argument (strBytes "\"prog.exe\" --flag \"a b\" c") =
    strBytes " --flag \"a b\" c" := by
  decide

/-- Claim C4 counterexample: the claim says the separating whitespace byte is
excluded from the returned slice; on `tool --version` the code returns
` --version` (separator included), not `--version`. -/
theorem claim_C4_counterexample :
    skip_one_argument (strBytes "tool --version") = strBytes " --version" ∧
    strBytes " --version" ≠ strBytes "--version" := by
  constructor
  · decide
  · decide

/-- Claim C4 (amended): `skip_one_argument` returns the remainder of its input
starting at the first-token boundary with the separating whitespace byte
included: every nonempty result begins with an (unquoted) whitespace byte and
is a verbatim suffix of the input. -/
theorem claim_C4_skip_remainder (arguments : List Nat) (b : Nat) (rest : List Nat)
    (h : skip_one_argument arguments = b :: rest) :
    isAsciiWhitespace b = true ∧ b :: rest <:+ arguments := by
  refine ⟨skipOffsetAux_drop_head_ws false arguments b rest h, ?_⟩
  rw [← h]
  exact List.drop_suffix _ _

/-- Witness for the amended claim C4 at the concrete input `tool --version`. -/
theorem claim_C4_skip_remainder_witness :
    isAsciiWhitespace 32 = true ∧ 32 :: strBytes "--version" <:+ strBytes "tool --version" :=
  claim_C4_skip_remainder (strBytes "tool --version") 32 (strBytes "--version") (by decide)

/-- Claim C10: on every input byte string the scanned offset never exceeds the
input length (the escape-pair branch cannot run past the end), and
`skip_one_argument` total-returns a suffix of its input. -/
theorem claim_C10_skip_safe (arguments : List Nat) :
    skipOffsetAux false arguments ≤ arguments.length ∧
    skip_one_argument arguments <:+ arguments :=
  ⟨skipOffsetAux_le false arguments, List.drop_suffix _ _⟩

theorem length_listLastN (n : Nat) (l : List Nat) :
    (listLastN n l).length = min n l.length := by
  simp [listLastN]
  omega

theorem listLastN_zero (l : List Nat) : listLastN 0 l = [] := by
  simp [listLastN]

theorem listLastN_all (n : Nat) (l : List Nat) (h : l.length ≤ n) :
    listLastN n l = l := by
  simp [listLastN, Nat.sub_eq_zero_of_le h]

theorem listLastN_append (n : Nat) (a b : List Nat) (h : b.length ≤ n) :
    listLastN n (a ++ b) = listLastN (n - b.length) a ++ b := by
  unfold listLastN
  rw [List.length_append]
  rw [List.drop_append_of_le_length
    (show a.length + b.length - n ≤ a.length by omega)]
  have hidx : a.length + b.length - n = a.length - (n - b.length) := by omega
  rw [hidx]

theorem listLastN_append_exact (a b : List Nat) :
    listLastN b.length (a ++ b) = b := by
  rw [listLastN_append _ _ _ (Nat.le_refl _), Nat.sub_self, listLastN_zero,
    List.nil_append]

theorem listLastN_listLastN (k m : Nat) (l : List Nat) (h : k ≤ m) :
    listLastN k (listLastN m l) = listLastN k l := by
  unfold listLastN
  rw [List.drop_drop]
  congr 1
  simp [List.length_drop]
  omega

theorem dropLastN_append (k : Nat) (a b : List Nat) (h : b.length = k) :
    dropLastN k (a ++ b) = a := by
  unfold dropLastN
  rw [List.length_append, h]
  have : a.length + k - k = a.length := by omega
  rw [this, List.take_left]

theorem leU32_leBytes32 (n : Nat) (h : n < 4294967296) :
    leU32 (leBytes32 n) = n := by
  simp [leU32, leBytes32]
  omega

theorem magic_number_length (k : TrampolineKind) : k.magic_number.length = 4 := by
  cases k <;> rfl

/-- A buffer that ends with a kind's magic number is recognized as that kind
(the two magic numbers are distinct, so no confusion is possible). -/
theorem from_buffer_append (w : List Nat) (k : TrampolineKind) :
    TrampolineKind.from_buffer (w ++ k.magic_number) = some k := by
  cases k
  · simp [TrampolineKind.from_buffer, TrampolineKind.magic_number,
      List.isSuffixOf_iff_suffix, List.suffix_append]
  · have hns : ¬ ([85, 86, 83, 67] <:+ w ++ [85, 86, 80, 89]) := by
      intro hcontra
      rw [List.suffix_iff_eq_drop] at hcontra
      simp only [List.length_append, List.length_cons, List.length_nil] at hcontra
      have hdrop : (w ++ [85, 86, 80, 89]).drop (w.length + (3 + 1) - (3 + 1)) =
          [85, 86, 80, 89] := by
        have : w.length + (3 + 1) - (3 + 1) = w.length := by omega
        rw [this, List.drop_left]
      rw [hdrop] at hcontra
      simp at hcontra
    simp [TrampolineKind.from_buffer, TrampolineKind.magic_number,
      List.isSuffixOf_iff_suffix, List.suffix_append, hns]

/-- Decoding any window of at least 8 bytes taken from the back of a file laid
out as `A ++ length ++ tag`: the kind is recognized, the length field reads
back `L`, and the window either fails the `MAX_PATH_LEN` check, or yields the
last `L` bytes of `A` when it holds them all, or requests a bigger window. -/
theorem decodeWindow_trailer (A : List Nat) (L : Nat) (kind : TrampolineKind)
    (n : Nat) (hL : L < 4294967296) (h8 : 8 ≤ n) :
    decodeWindow (listLastN n (A ++ leBytes32 L ++ kind.magic_number)) =
      if 32768 < L then .fail (.pathTooLong L)
      else if L ≤ min (n - 8) A.length then
        (if validUtf8 (listLastN L A) then .ok kind (listLastN L A)
         else .fail .invalidUtf8)
      else .needMore L := by
  have hlen8 : (leBytes32 L ++ kind.magic_number).length = 8 := by
    simp [leBytes32, magic_number_length]
  have hw : listLastN n (A ++ leBytes32 L ++ kind.magic_number) =
      (listLastN (n - 8) A ++ leBytes32 L) ++ kind.magic_number := by
    rw [List.append_assoc, listLastN_append n A _ (by omega), hlen8, ← List.append_assoc]
  have hlenle : (leBytes32 L).length = 4 := by simp [leBytes32]
  rw [hw]
  unfold decodeWindow
  rw [from_buffer_append]
  simp only [dropLastN_append 4 _ _ (magic_number_length kind)]
  rw [dropLastN_append 4 _ _ hlenle]
  have hb1len : (listLastN (n - 8) A ++ leBytes32 L).length =
      min (n - 8) A.length + 4 := by
    simp [List.length_append, length_listLastN, hlenle]
  rw [if_neg (by omega)]
  have hlast4 : listLastN 4 (listLastN (n - 8) A ++ leBytes32 L) = leBytes32 L := by
    have := listLastN_append_exact (listLastN (n - 8) A) (leBytes32 L)
    rwa [hlenle] at this
  rw [hlast4, leU32_leBytes32 L hL]
  by_cases hmax : 32768 < L
  · rw [if_pos hmax, if_pos hmax]
  · rw [if_neg hmax, if_neg hmax]
    rw [length_listLastN]
    by_cases hfits : L ≤ min (n - 8) A.length
    · rw [if_pos hfits, if_pos hfits]
      rw [listLastN_listLastN L (n - 8) A (by omega)]
    · rw [if_neg hfits, if_neg hfits]

/-- Claim C2: for every trailer kind and every valid-UTF-8 path of at most
32768 bytes, encoding the trailer per the documented layout at the end of any
file and decoding it with `read_trampoline_metadata` yields back exactly the
original `(kind, path)` pair. -/
theorem claim_C2_trailer_roundtrip (code : List Nat) (kind : TrampolineKind)
    (path : List Nat) (hutf : validUtf8 path = true) (hlen : path.length ≤ 32768) :
    read_trampoline_metadata (encodeTrailer code kind path) = .ok kind path := by
  have hshape : encodeTrailer code kind path =
      (code ++ path) ++ leBytes32 path.length ++ kind.magic_number := by
    simp [encodeTrailer]
  have hlenfile : ((code ++ path) ++ leBytes32 path.length ++ kind.magic_number).length
      = code.length + path.length + 8 := by
    simp only [List.length_append, leBytes32, List.length_cons, List.length_nil,
      magic_number_length]
  by_cases hc : path.length ≤
      min (min 1024 (code.length + path.length + 8) - 8) (code ++ path).length
  · have hw1 : decodeWindow (listLastN (min 1024 (code.length + path.length + 8))
        ((code ++ path) ++ leBytes32 path.length ++ kind.magic_number)) =
        .ok kind path := by
      rw [decodeWindow_trailer (code ++ path) path.length kind _ (by omega) (by omega)]
      rw [if_neg (show ¬ 32768 < path.length by omega), if_pos hc,
        listLastN_append_exact code path, hutf]
      simp
    rw [hshape]
    unfold read_trampoline_metadata
    rw [hlenfile]
    simp only [hw1]
  · have hw1 : decodeWindow (listLastN (min 1024 (code.length + path.length + 8))
        ((code ++ path) ++ leBytes32 path.length ++ kind.magic_number)) =
        .needMore path.length := by
      rw [decodeWindow_trailer (code ++ path) path.length kind _ (by omega) (by omega)]
      rw [if_neg (show ¬ 32768 < path.length by omega), if_neg hc]
    have hw2 : decodeWindow (listLastN (path.length + 4 + 4)
        ((code ++ path) ++ leBytes32 path.length ++ kind.magic_number)) =
        .ok kind path := by
      rw [decodeWindow_trailer (code ++ path) path.length kind _ (by omega) (by omega)]
      rw [if_neg (show ¬ 32768 < path.length by omega),
        if_pos (show path.length ≤ min (path.length + 4 + 4 - 8) (code ++ path).length by
          simp [List.length_append]),
        listLastN_append_exact code path, hutf]
      simp
    rw [hshape]
    unfold read_trampoline_metadata
    rw [hlenfile]
    simp only [hw1]
    rw [if_neg (show ¬ code.length + path.length + 8 < path.length + 4 + 4 by omega)]
    simp only [hw2]

/-- Witness for claim C2 at a concrete trailer. -/
theorem claim_C2_trailer_roundtrip_witness :
    validUtf8 (strBytes "C:\\x\\py.exe") = true ∧
    (strBytes "C:\\x\\py.exe").length ≤ 32768 ∧
    read_trampoline_metadata (encodeTrailer [7, 7, 7] .Script (strBytes "C:\\x\\py.exe")) =
      .ok .Script (strBytes "C:\\x\\py.exe") :=
  ⟨by decide, by decide,
    claim_C2_trailer_roundtrip [7, 7, 7] .Script (strBytes "C:\\x\\py.exe")
      (by decide) (by decide)⟩

/-- Claim C6: a trailer whose little-endian length field holds `L` decodes to
the `pathTooLong` protocol error exactly when `L > 32768` (every `L ≤ 32768`
passes the length check), and in the failing case the launcher exits with
status 1 without ever attempting process creation. -/
theorem claim_C6_oversized_path_len (code : List Nat) (kind : TrampolineKind) (L : Nat)
    (hL : L < 4294967296) (w : OsWorld) (gui : Bool) (exe args : List Nat) :
    (read_trampoline_metadata (code ++ leBytes32 L ++ kind.magic_number) =
        .fatal (.pathTooLong L) ↔ 32768 < L) ∧
    (32768 < L →
      launchPipeline w gui (code ++ leBytes32 L ++ kind.magic_number) exe args =
        ⟨1, false⟩) := by
  have hlenfile : (code ++ leBytes32 L ++ kind.magic_number).length = code.length + 8 := by
    simp only [List.length_append, leBytes32, List.length_cons, List.length_nil,
      magic_number_length]
  by_cases hmax : 32768 < L
  · have hw1 : decodeWindow (listLastN (min 1024 (code.length + 8))
        (code ++ leBytes32 L ++ kind.magic_number)) = .fail (.pathTooLong L) := by
      rw [decodeWindow_trailer code L kind _ hL (by omega), if_pos hmax]
    have hread : read_trampoline_metadata (code ++ leBytes32 L ++ kind.magic_number) =
        .fatal (.pathTooLong L) := by
      unfold read_trampoline_metadata
      rw [hlenfile]
      simp only [hw1]
    refine ⟨by rw [hread]; simp [hmax], fun _ => ?_⟩
    simp only [launchPipeline, hread, bounceModel]
  · have hnotTooLong : read_trampoline_metadata (code ++ leBytes32 L ++ kind.magic_number) ≠
        .fatal (.pathTooLong L) := by
      by_cases hc : L ≤ min (min 1024 (code.length + 8) - 8) code.length
      · by_cases hutf : validUtf8 (listLastN L code) = true
        · have hw1 : decodeWindow (listLastN (min 1024 (code.length + 8))
              (code ++ leBytes32 L ++ kind.magic_number)) = .ok kind (listLastN L code) := by
            rw [decodeWindow_trailer code L kind _ hL (by omega), if_neg hmax, if_pos hc, hutf]
            simp
          unfold read_trampoline_metadata
          rw [hlenfile]
          simp only [hw1]
          simp
        · have hw1 : decodeWindow (listLastN (min 1024 (code.length + 8))
              (code ++ leBytes32 L ++ kind.magic_number)) = .fail .invalidUtf8 := by
            rw [decodeWindow_trailer code L kind _ hL (by omega), if_neg hmax, if_pos hc]
            simp [hutf]
          unfold read_trampoline_metadata
          rw [hlenfile]
          simp only [hw1]
          simp
      · have hw1 : decodeWindow (listLastN (min 1024 (code.length + 8))
            (code ++ leBytes32 L ++ kind.magic_number)) = .needMore L := by
          rw [decodeWindow_trailer code L kind _ hL (by omega), if_neg hmax, if_neg hc]
        by_cases hsz : code.length + 8 < L + 4 + 4
        · unfold read_trampoline_metadata
          rw [hlenfile]
          simp only [hw1]
          rw [if_pos hsz]
          simp
        · have hfits : L ≤ min (L + 4 + 4 - 8) code.length := by
            omega
          by_cases hutf : validUtf8 (listLastN L code) = true
          · have hw2 : decodeWindow (listLastN (L + 4 + 4)
                (code ++ leBytes32 L ++ kind.magic_number)) = .ok kind (listLastN L code) := by
              rw [decodeWindow_trailer code L kind _ hL (by omega), if_neg hmax, if_pos hfits,
                hutf]
              simp
            unfold read_trampoline_metadata
            rw [hlenfile]
            simp only [hw1]
            rw [if_neg hsz]
            simp only [hw2]
            simp
          · have hw2 : decodeWindow (listLastN (L + 4 + 4)
                (code ++ leBytes32 L ++ kind.magic_number)) = .fail .invalidUtf8 := by
              rw [decodeWindow_trailer code L kind _ hL (by omega), if_neg hmax, if_pos hfits]
              simp [hutf]
            unfold read_trampoline_metadata
            rw [hlenfile]
            simp only [hw1]
            rw [if_neg hsz]
            simp only [hw2]
            simp
    exact ⟨⟨fun h => absurd h hnotTooLong, fun h => absurd h hmax⟩, fun h => absurd h hmax⟩

/-- Witness for claim C6 at the concrete oversized length `L = 40000`. -/
theorem claim_C6_oversized_path_len_witness :
    (read_trampoline_metadata (List.replicate 50 7 ++ leBytes32 40000 ++
        TrampolineKind.Python.magic_number) = .fatal (.pathTooLong 40000) ↔ 32768 < 40000) ∧
    (32768 < 40000 →
      launchPipeline ⟨true, true, true, true, true, true, true, true, true, true, 0⟩ false
        (List.replicate 50 7 ++ leBytes32 40000 ++ TrampolineKind.Python.magic_number)
        [] [] = ⟨1, false⟩) :=
  claim_C6_oversized_path_len (List.replicate 50 7) .Python 40000 (by decide)
    ⟨true, true, true, true, true, true, true, true, true, true, 0⟩ false [] []

theorem noBI_tail (b c : Nat) (t : List Nat)
    (hok : noBackslashIssue (b :: c :: t) = true) : noBackslashIssue (c :: t) = true := by
  by_cases hb : b = 92
  · subst hb
    by_cases hc : c = 34
    · subst hc
      simp [noBackslashIssue] at hok
    · simp [noBackslashIssue, hc] at hok
      exact hok
  · simp [noBackslashIssue, hb] at hok
    exact hok

theorem noBackslashIssue_decomp (rest : List Nat)
    (hok : noBackslashIssue (92 :: rest) = true) :
    ∃ k c rest2, 92 :: rest = List.replicate (k + 1) 92 ++ c :: rest2 ∧
      c ≠ 92 ∧ c ≠ 34 ∧ noBackslashIssue (c :: rest2) = true := by
  induction rest with
  | nil => simp [noBackslashIssue] at hok
  | cons c t ih =>
    by_cases hc92 : c = 92
    · subst hc92
      obtain ⟨k, c2, rest2, heq, h1, h2, h3⟩ := ih (noBI_tail 92 92 t hok)
      refine ⟨k + 1, c2, rest2, ?_, h1, h2, h3⟩
      rw [List.replicate_succ, List.cons_append, ← heq]
    · by_cases hc34 : c = 34
      · subst hc34
        simp [noBackslashIssue] at hok
      · exact ⟨0, c, t, by simp, hc92, hc34, noBI_tail 92 c t hok⟩

theorem flatMap_esc_replicate92 (m : Nat) (l : List Nat) :
    ((List.replicate m 92 ++ l).flatMap fun b => if b = 34 then [34, 34, 34] else [b]) =
      List.replicate m 92 ++ l.flatMap fun b => if b = 34 then [34, 34, 34] else [b] := by
  induction m with
  | zero => simp
  | succ k ih => simp [List.replicate_succ, ih]

theorem leadingBackslashes_replicate (m : Nat) (c : Nat) (l : List Nat) (hc : c ≠ 92) :
    leadingBackslashes (List.replicate m 92 ++ c :: l) = m := by
  induction m with
  | zero => simp [leadingBackslashes, hc]
  | succ k ih => simp [List.replicate_succ, leadingBackslashes, ih]

theorem afterBackslashes_replicate (m : Nat) (c : Nat) (l : List Nat) (hc : c ≠ 92) :
    afterBackslashes (List.replicate m 92 ++ c :: l) = c :: l := by
  induction m with
  | zero => simp [afterBackslashes, hc]
  | succ k ih => simp [List.replicate_succ, afterBackslashes, ih]

theorem parse_quote_toggle_on (l : List Nat) :
    parseFirstToken false (34 :: l) = parseFirstToken true l := by
  rw [parseFirstToken.eq_def]
  simp

theorem parse_quote_pair (l : List Nat) :
    parseFirstToken true (34 :: 34 :: l) = 34 :: parseFirstToken false l := by
  rw [parseFirstToken.eq_def]
  simp

theorem parse_close_nil : parseFirstToken true [34] = [] := by
  rw [parseFirstToken.eq_def]
  simp [parseFirstToken]

theorem parseFirstToken_cons_other (quoted : Bool) (c : Nat) (l : List Nat)
    (hc34 : c ≠ 34) (hc92 : c ≠ 92) :
    parseFirstToken quoted (c :: l) =
      if isAsciiWhitespace c && !quoted then [] else c :: parseFirstToken quoted l := by
  conv_lhs => rw [parseFirstToken.eq_def]
  split
  all_goals simp_all

theorem parse_backslash_run (quoted : Bool) (k c : Nat) (l : List Nat)
    (hc92 : c ≠ 92) (hc34 : c ≠ 34) :
    parseFirstToken quoted (List.replicate (k + 1) 92 ++ c :: l) =
      List.replicate (k + 1) 92 ++ parseFirstToken quoted (c :: l) := by
  rw [List.replicate_succ, List.cons_append, parseFirstToken.eq_def]
  have hafter := afterBackslashes_replicate k c l hc92
  have hlead := leadingBackslashes_replicate k c l hc92
  split
  all_goals simp_all [List.replicate_succ]

theorem parse_quoted_body (n : Nat) : ∀ (path : List Nat), path.length ≤ n →
    noBackslashIssue path = true →
    parseFirstToken true
      ((path.flatMap fun b => if b = 34 then [34, 34, 34] else [b]) ++ [34]) = path := by
  induction n with
  | zero =>
    intro path hlen hok
    have hnil : path = [] := by cases path <;> simp_all
    subst hnil
    simpa using parse_close_nil
  | succ m ih =>
    intro path hlen hok
    cases path with
    | nil => simpa using parse_close_nil
    | cons b rest =>
      simp only [List.length_cons] at hlen
      by_cases h34 : b = 34
      · subst h34
        have hokr : noBackslashIssue rest = true := by
          cases rest with
          | nil => simp [noBackslashIssue]
          | cons c t => exact noBI_tail 34 c t hok
        have ihr := ih rest (by omega) hokr
        have hesc : ((34 :: rest).flatMap fun b => if b = 34 then [34, 34, 34] else [b]) =
            34 :: 34 :: 34 :: rest.flatMap fun b => if b = 34 then [34, 34, 34] else [b] := by
          simp
        rw [hesc, List.cons_append, List.cons_append, List.cons_append]
        rw [parse_quote_pair, parse_quote_toggle_on, ihr]
      · by_cases h92 : b = 92
        · subst h92
          obtain ⟨k, c, rest2, heq, hc92, hc34, hok2⟩ := noBackslashIssue_decomp rest hok
          have hlens := congrArg List.length heq
          simp only [List.length_append, List.length_cons, List.length_replicate] at hlens
          have ihr := ih (c :: rest2) (by simp only [List.length_cons]; omega) hok2
          rw [heq, flatMap_esc_replicate92 (k + 1) (c :: rest2)]
          have hcbody : ((c :: rest2).flatMap fun b => if b = 34 then [34, 34, 34] else [b]) =
              c :: rest2.flatMap fun b => if b = 34 then [34, 34, 34] else [b] := by
            simp [List.flatMap_cons, hc34]
          rw [hcbody, List.append_assoc, List.cons_append]
          rw [parse_backslash_run true k c _ hc92 hc34]
          rw [hcbody, List.cons_append] at ihr
          rw [ihr]
        · have hokr : noBackslashIssue rest = true := by
            cases rest with
            | nil => simp [noBackslashIssue]
            | cons c t => exact noBI_tail b c t hok
          have ihr := ih rest (by omega) hokr
          have hesc : ((b :: rest).flatMap fun x => if x = 34 then [34, 34, 34] else [x]) =
              b :: rest.flatMap fun x => if x = 34 then [34, 34, 34] else [x] := by
            simp [List.flatMap_cons, h34]
          rw [hesc, List.cons_append]
          rw [parseFirstToken_cons_other true b _ h34 h92]
          simp only [Bool.not_true, Bool.and_false, Bool.false_eq_true, if_false]
          rw [ihr]

/-- Claim C3 counterexample: for the one-byte path consisting of a single
backslash, quoting produces `"\\"`, which the platform tokenizer reads as an
escaped quote: the first token parses back as a double quote, not the original
backslash, so the round-trip fails for paths with a backslash before a quote. -/
theorem claim_C3_counterexample :
    parseFirstToken false (push_quoted_path [92] []) = [34] ∧ ([34] : List Nat) ≠ [92] := by
  constructor
  · simp [parseFirstToken, push_quoted_path, afterBackslashes, leadingBackslashes]
  · simp

/-- Claim C3 (amended): for every path byte string in which no backslash
immediately precedes a double-quote byte and whose last byte is not a
backslash (double quotes themselves unrestricted), applying `push_quoted_path`
and then parsing the first token of the result with the platform's documented
tokenizer yields back exactly the original path bytes. -/
theorem claim_C3_quote_roundtrip (path : List Nat)
    (hok : noBackslashIssue path = true) :
    parseFirstToken false (push_quoted_path path []) = path := by
  have hshape : push_quoted_path path [] =
      34 :: ((path.flatMap fun b => if b = 34 then [34, 34, 34] else [b]) ++ [34]) := by
    simp [push_quoted_path]
  rw [hshape, parse_quote_toggle_on]
  exact parse_quoted_body path.length path (Nat.le_refl _) hok

/-- Witness for the amended claim C3 at the concrete path `a"b c`
(embedded double quote and space). -/
theorem claim_C3_quote_roundtrip_witness :
    noBackslashIssue [97, 34, 98, 32, 99] = true ∧
    parseFirstToken false (push_quoted_path [97, 34, 98, 32, 99] []) =
      [97, 34, 98, 32, 99] :=
  ⟨by decide, claim_C3_quote_roundtrip [97, 34, 98, 32, 99] (by decide)⟩

/-- Claim C7: in Python mode, `PYTHONHOME` is set to the interpreter's parent
directory exactly when the interpreter is not inside a virtual environment and
`PYTHONHOME` is not already set non-empty; an interpreter counts as inside a
virtual environment exactly when `pyvenv.cfg` exists in its parent's parent
directory; in particular, when that file exists, `is_virtualenv` returns true
and `PYTHONHOME` is left untouched. -/
theorem claim_C7_pythonhome (is_file : WinPath → Bool) (python_exe : WinPath)
    (python_home : Option String) (par : WinPath)
    (hpar : python_exe.parent = some par) :
    (pythonHomeAction is_file python_exe python_home = some (.setTo par) ↔
      (is_virtualenv is_file python_exe = false ∧ pythonHomeSet python_home = false)) ∧
    (is_virtualenv is_file python_exe = true ↔
      ∃ gp, par.parent = some gp ∧ is_file (gp.join "pyvenv.cfg") = true) ∧
    (is_virtualenv is_file python_exe = true →
      pythonHomeAction is_file python_exe python_home = some .leaveUnchanged) := by
  refine ⟨?_, ?_, ?_⟩
  · by_cases hv : is_virtualenv is_file python_exe
    · simp [pythonHomeAction, hv]
    · by_cases hs : pythonHomeSet python_home
      · simp [pythonHomeAction, hv, hs]
      · simp [pythonHomeAction, hv, hs, hpar]
  · simp only [is_virtualenv, hpar]
    cases hgp : par.parent with
    | none => simp
    | some gp =>
      constructor
      · intro h
        exact ⟨gp, rfl, h⟩
      · rintro ⟨gp2, hgp2, hf⟩
        cases hgp2
        exact hf
  · intro hv
    simp [pythonHomeAction, hv]

/-- Witness for claim C7 at a concrete virtual-environment layout:
`pyvenv.cfg` exists two levels above `C:\env\Scripts\python.exe`. -/
theorem claim_C7_pythonhome_witness :
    (⟨true, ["C:", "env", "Scripts", "python.exe"]⟩ : WinPath).parent =
      some ⟨true, ["C:", "env", "Scripts"]⟩ ∧
    ((pythonHomeAction (fun p => decide (p = ⟨true, ["C:", "env", "pyvenv.cfg"]⟩))
        ⟨true, ["C:", "env", "Scripts", "python.exe"]⟩ none =
        some (.setTo ⟨true, ["C:", "env", "Scripts"]⟩) ↔
      (is_virtualenv (fun p => decide (p = ⟨true, ["C:", "env", "pyvenv.cfg"]⟩))
          ⟨true, ["C:", "env", "Scripts", "python.exe"]⟩ = false ∧
        pythonHomeSet none = false)) ∧
    (is_virtualenv (fun p => decide (p = ⟨true, ["C:", "env", "pyvenv.cfg"]⟩))
        ⟨true, ["C:", "env", "Scripts", "python.exe"]⟩ = true ↔
      ∃ gp, (⟨true, ["C:", "env", "Scripts"]⟩ : WinPath).parent = some gp ∧
        decide (gp.join "pyvenv.cfg" = ⟨true, ["C:", "env", "pyvenv.cfg"]⟩) = true) ∧
    (is_virtualenv (fun p => decide (p = ⟨true, ["C:", "env", "pyvenv.cfg"]⟩))
        ⟨true, ["C:", "env", "Scripts", "python.exe"]⟩ = true →
      pythonHomeAction (fun p => decide (p = ⟨true, ["C:", "env", "pyvenv.cfg"]⟩))
        ⟨true, ["C:", "env", "Scripts", "python.exe"]⟩ none = some .leaveUnchanged)) :=
  ⟨by decide,
    claim_C7_pythonhome (fun p => decide (p = ⟨true, ["C:", "env", "pyvenv.cfg"]⟩))
      ⟨true, ["C:", "env", "Scripts", "python.exe"]⟩ none
      ⟨true, ["C:", "env", "Scripts"]⟩ (by decide)⟩

/-- Claim C8 counterexample: a relative `Python`-kind decoded path whose
resolution against the launcher directory is absolute is returned without
canonicalization, although the claim says every relative decoded path is
canonicalized (here canonicalization would return the marker path `CANON`). -/
theorem claim_C8_counterexample :
    resolveInterpreterPath (fun _ => some ⟨true, ["CANON"]⟩)
      ⟨true, ["C:", "env", "Scripts", "tool.exe"]⟩ .Python ⟨false, ["python.exe"]⟩ =
      .ok ⟨true, ["C:", "env", "Scripts", "python.exe"]⟩ ∧
    (fun (_ : WinPath) => some (⟨true, ["CANON"]⟩ : WinPath))
        (⟨true, ["C:", "env", "Scripts", "python.exe"]⟩ : WinPath) =
      some ⟨true, ["CANON"]⟩ ∧
    (⟨true, ["C:", "env", "Scripts", "python.exe"]⟩ : WinPath) ≠ ⟨true, ["CANON"]⟩ := by
  refine ⟨by decide, rfl, by decide⟩

/-- Claim C8 (amended): a relative decoded interpreter path is first resolved
against the launcher executable's containing directory; the path is then
canonicalized if and only if the path after this resolution step is still not
absolute or the trailer kind is `Script`.  In particular an absolute
`Python`-kind decoded path is returned exactly as decoded, and a relative
`Python`-kind path that resolves to an absolute location is returned joined
but un-canonicalized. -/
theorem claim_C8_resolution (canonicalize : WinPath → Option WinPath)
    (exe : WinPath) (kind : TrampolineKind) (path par : WinPath)
    (hpar : exe.parent = some par) :
    (path.absolute = true → kind = .Python →
      resolveInterpreterPath canonicalize exe kind path = .ok path) ∧
    (path.absolute = true → kind = .Script →
      resolveInterpreterPath canonicalize exe kind path =
        (match canonicalize path with
         | some c => .ok c
         | none => .fatal .canonicalizeFailed)) ∧
    (path.absolute = false → (par.joinPath path).absolute = true → kind = .Python →
      resolveInterpreterPath canonicalize exe kind path = .ok (par.joinPath path)) ∧
    (path.absolute = false → ((par.joinPath path).absolute = false ∨ kind = .Script) →
      resolveInterpreterPath canonicalize exe kind path =
        (match canonicalize (par.joinPath path) with
         | some c => .ok c
         | none => .fatal .canonicalizeFailed)) := by
  refine ⟨?_, ?_, ?_, ?_⟩
  · intro habs hk
    subst hk
    simp [resolveInterpreterPath, habs]
  · intro habs hk
    subst hk
    simp [resolveInterpreterPath, habs]
  · intro habs hjoined hk
    subst hk
    simp [resolveInterpreterPath, habs, hpar, hjoined]
  · intro habs hcond
    simp only [resolveInterpreterPath, habs, Bool.false_eq_true, if_false, hpar]
    rcases hcond with hrel | hk
    · simp [hrel]
    · subst hk
      simp

/-- Witness for the amended claim C8 at concrete paths. -/
theorem claim_C8_resolution_witness :
    (⟨true, ["C:", "env", "Scripts", "tool.exe"]⟩ : WinPath).parent =
      some ⟨true, ["C:", "env", "Scripts"]⟩ ∧
    (((⟨true, ["D:", "py.exe"]⟩ : WinPath).absolute = true →
      TrampolineKind.Python = TrampolineKind.Python →
      resolveInterpreterPath (fun _ => some ⟨true, ["CANON"]⟩)
        ⟨true, ["C:", "env", "Scripts", "tool.exe"]⟩ .Python ⟨true, ["D:", "py.exe"]⟩ =
        .ok ⟨true, ["D:", "py.exe"]⟩) ∧
    ((⟨true, ["D:", "py.exe"]⟩ : WinPath).absolute = true →
      TrampolineKind.Python = TrampolineKind.Script →
      resolveInterpreterPath (fun _ => some ⟨true, ["CANON"]⟩)
        ⟨true, ["C:", "env", "Scripts", "tool.exe"]⟩ .Python ⟨true, ["D:", "py.exe"]⟩ =
        (match (fun (_ : WinPath) => some (⟨true, ["CANON"]⟩ : WinPath))
            (⟨true, ["D:", "py.exe"]⟩ : WinPath) with
         | some c => .ok c
         | none => .fatal .canonicalizeFailed)) ∧
    ((⟨true, ["D:", "py.exe"]⟩ : WinPath).absolute = false →
      ((⟨true, ["C:", "env", "Scripts"]⟩ : WinPath).joinPath
          ⟨true, ["D:", "py.exe"]⟩).absolute = true →
      TrampolineKind.Python = TrampolineKind.Python →
      resolveInterpreterPath (fun _ => some ⟨true, ["CANON"]⟩)
        ⟨true, ["C:", "env", "Scripts", "tool.exe"]⟩ .Python ⟨true, ["D:", "py.exe"]⟩ =
        .ok ((⟨true, ["C:", "env", "Scripts"]⟩ : WinPath).joinPath
          ⟨true, ["D:", "py.exe"]⟩)) ∧
    ((⟨true, ["D:", "py.exe"]⟩ : WinPath).absolute = false →
      (((⟨true, ["C:", "env", "Scripts"]⟩ : WinPath).joinPath
          ⟨true, ["D:", "py.exe"]⟩).absolute = false ∨
        TrampolineKind.Python = TrampolineKind.Script) →
      resolveInterpreterPath (fun _ => some ⟨true, ["CANON"]⟩)
        ⟨true, ["C:", "env", "Scripts", "tool.exe"]⟩ .Python ⟨true, ["D:", "py.exe"]⟩ =
        (match (fun (_ : WinPath) => some (⟨true, ["CANON"]⟩ : WinPath))
            ((⟨true, ["C:", "env", "Scripts"]⟩ : WinPath).joinPath
              ⟨true, ["D:", "py.exe"]⟩) with
         | some c => .ok c
         | none => .fatal .canonicalizeFailed))) :=
  ⟨by decide,
    claim_C8_resolution (fun _ => some ⟨true, ["CANON"]⟩)
      ⟨true, ["C:", "env", "Scripts", "tool.exe"]⟩ .Python ⟨true, ["D:", "py.exe"]⟩
      ⟨true, ["C:", "env", "Scripts"]⟩ (by decide)⟩

/-- Claim C9: on the success path (every fatal OS call succeeding) the
launcher terminates with the child's exact exit code; on any internally
detected fatal condition -- malformed trailer, spawn failure, any job-object
failure, or failure to retrieve the exit code -- it exits with status 1. -/
theorem claim_C9_exit_propagation (w : OsWorld) (gui : Bool) (cmd : List Nat)
    (e : DecodeError) :
    (w.createProcessOk = true → w.closeThreadHandleOk = true → w.jobCreateOk = true →
     w.jobQueryOk = true → w.jobSetOk = true → w.assignToJobOk = true →
     w.setCtrlHandlerOk = true → w.getExitCodeOk = true →
     (gui = true → w.createWindowOk = true → w.destroyWindowOk = true) →
     bounceModel w gui (.ok cmd) = ⟨w.childExitCode, true⟩) ∧
    bounceModel w gui (.error e) = ⟨1, false⟩ ∧
    (w.createProcessOk = false → bounceModel w gui (.ok cmd) = ⟨1, true⟩) ∧
    (w.jobCreateOk = false ∨ w.jobQueryOk = false ∨ w.jobSetOk = false ∨
        w.assignToJobOk = false →
      (bounceModel w gui (.ok cmd)).exitCode = 1) ∧
    (w.getExitCodeOk = false → (bounceModel w gui (.ok cmd)).exitCode = 1) := by
  refine ⟨?_, rfl, ?_, ?_, ?_⟩
  · intro h1 h2 h3 h4 h5 h6 h7 h8 h9
    by_cases hgui : gui = true
    · by_cases hcw : w.createWindowOk = true
      · have hdw := h9 hgui hcw
        simp [bounceModel, h1, h2, h3, h4, h5, h6, h7, h8, hgui, hcw, hdw]
      · simp [bounceModel, h1, h2, h3, h4, h5, h6, h7, h8, hgui, hcw]
    · simp [bounceModel, h1, h2, h3, h4, h5, h6, h7, h8, hgui]
  · intro h1
    simp [bounceModel, h1]
  · intro hdisj
    simp only [bounceModel]
    split_ifs <;> first | rfl | simp_all
  · intro h
    simp only [bounceModel]
    split_ifs <;> rfl

/-- Witness for claim C9 with an all-succeeding OS world. -/
theorem claim_C9_exit_propagation_witness :
    ((⟨true, true, true, true, true, true, true, true, true, true, 42⟩ :
        OsWorld).createProcessOk = true → true = true → true = true → true = true →
      true = true → true = true → true = true → true = true →
      (false = true → true = true → true = true) →
      bounceModel ⟨true, true, true, true, true, true, true, true, true, true, 42⟩
        false (.ok []) = ⟨42, true⟩) ∧
    bounceModel ⟨true, true, true, true, true, true, true, true, true, true, 42⟩
      false (.error .magicNotFound) = ⟨1, false⟩ ∧
    ((⟨true, true, true, true, true, true, true, true, true, true, 42⟩ :
        OsWorld).createProcessOk = false →
      bounceModel ⟨true, true, true, true, true, true, true, true, true, true, 42⟩
        false (.ok []) = ⟨1, true⟩) ∧
    ((⟨true, true, true, true, true, true, true, true, true, true, 42⟩ :
          OsWorld).jobCreateOk = false ∨
        (⟨true, true, true, true, true, true, true, true, true, true, 42⟩ :
          OsWorld).jobQueryOk = false ∨
        (⟨true, true, true, true, true, true, true, true, true, true, 42⟩ :
          OsWorld).jobSetOk = false ∨
        (⟨true, true, true, true, true, true, true, true, true, true, 42⟩ :
          OsWorld).assignToJobOk = false →
      (bounceModel ⟨true, true, true, true, true, true, true, true, true, true, 42⟩
        false (.ok [])).exitCode = 1) ∧
    ((⟨true, true, true, true, true, true, true, true, true, true, 42⟩ :
        OsWorld).getExitCodeOk = false →
      (bounceModel ⟨true, true, true, true, true, true, true, true, true, true, 42⟩
        false (.ok [])).exitCode = 1) :=
  claim_C9_exit_propagation
    ⟨true, true, true, true, true, true, true, true, true, true, 42⟩ false []
    .magicNotFound
